import Mathlib

/-
Shallow embedding of the real-time sensor/command relay in src/server.cjs.

The relay is a single-threaded WebSocket broker.  Its mutable state is
  - espSocket       : the current producer connection (a nullable reference),
  - dashboards      : a Set of consumer connections,
  - lastPumpCommand : the last pump command value seen (initially null),
plus per-connection attributes role, isAlive and readyState.

We model JavaScript primitive values with JVal (strict equality becomes
decidable equality), connections by numeric identifiers carrying their
attributes in a registry list, and each event handler of the source as a
pure function from state and event to new state plus a list of observable
outputs (socket sends, log lines, the HTTP POST of logSensorData, pings and
terminations).  JSON.parse is modelled by the event carrying both the raw
text and the optional parse result.  Connection identifiers are unique
(each accepted socket is a fresh object), which handleConnect enforces.
The stored ws.id field is omitted: the source assigns it but never reads it
again, so it has no observable effect.
-/

namespace Relay

/-- JavaScript primitive values as far as the relay inspects them. -/
inductive JVal where
  | null
  | undef
  | str (s : String)
  | num (n : Int)
  | jbool (b : Bool)
deriving DecidableEq, Repr

/-- JavaScript falsiness for the values above (undefined, null, 0, empty
string and false are falsy). -/
def JVal.falsy : JVal → Bool
  | .null => true
  | .undef => true
  | .str s => s = ""
  | .num n => n = 0
  | .jbool b => !b

/-- The role attribute the handler stores on a socket (ws.role); absent is
modelled as unclassified. -/
inductive Role where
  | unclassified
  | esp
  | dashboard
deriving DecidableEq, Repr

/-- A parsed JSON message, as a record of the fields the relay reads.  A
field that is absent in the JSON object reads as undefined. -/
structure Msg where
  type : JVal := .undef
  role : JVal := .undef
  id : JVal := .undef
  cmd : JVal := .undef
  value : JVal := .undef
  timestamp : JVal := .undef
  soil_pct : JVal := .undef
  temperature : JVal := .undef
  humidity : JVal := .undef
  rain_raw : JVal := .undef
  ldr_raw : JVal := .undef
  flow_lmin : JVal := .undef
  total_l : JVal := .undef
  pump : JVal := .undef
  mode : JVal := .undef
deriving DecidableEq, Repr

/-- The normalized body logSensorData POSTs to the storage sink
(src/server.cjs lines 30-41). -/
structure LogData where
  timestamp : JVal
  soil_pct : JVal
  temperature : JVal
  humidity : JVal
  rain_raw : JVal
  ldr_raw : JVal
  flow_lmin : JVal
  total_l : JVal
  pump : JVal
  mode : JVal
deriving DecidableEq, Repr

/-- JavaScript a || b : a when truthy, otherwise b. -/
def jsOr (a b : JVal) : JVal := if a.falsy then b else a

/-- logSensorData, src/server.cjs lines 22-59: add a timestamp when the
field is falsy (new Date toISOString, passed in as now) and build the
normalized body.  The HTTP POST itself is an observable output of the
message handler. -/
def logSensorData (m : Msg) (now : String) : LogData :=
  { timestamp := if m.timestamp.falsy then JVal.str now else m.timestamp
    soil_pct := jsOr m.soil_pct (JVal.num 0)
    temperature := jsOr m.temperature (JVal.num 0)
    humidity := jsOr m.humidity (JVal.num 0)
    rain_raw := jsOr m.rain_raw (JVal.num 1023)
    ldr_raw := jsOr m.ldr_raw (JVal.num 500)
    flow_lmin := jsOr m.flow_lmin (JVal.num 0)
    total_l := jsOr m.total_l (JVal.num 0)
    pump := jsOr m.pump (JVal.num 0)
    mode := jsOr m.mode (JVal.str "AUTO") }

/-- One open connection: its identifier and the attributes the source
stores on the ws object (role, isAlive) plus the transport readyState,
reduced to whether it equals WebSocket.OPEN. -/
structure Conn where
  cid : Nat
  role : Role
  isAlive : Bool
  readyOpen : Bool
deriving DecidableEq, Repr

/-- The global mutable state of src/server.cjs: wss.clients (conns),
espSocket, dashboards and lastPumpCommand. -/
structure Server where
  conns : List Conn
  espSocket : Option Nat
  dashboards : List Nat
  lastPumpCommand : JVal
deriving DecidableEq, Repr

/-- Initial state: no connections, espSocket = null, empty dashboard set,
lastPumpCommand = null (src/server.cjs lines 15-19). -/
def initServer : Server :=
  { conns := [], espSocket := none, dashboards := [], lastPumpCommand := JVal.null }

/-- Observable outputs of the handlers: socket sends, the duplicate-command
log line, the logSensorData POST, pings and terminations. -/
inductive Output where
  | ack (dst : Nat) (role : Role)
  | raw (dst : Nat) (text : String)
  | cmdForward (dst : Nat) (m : Msg)
  | errorEspNotConnected (dst : Nat)
  | logDuplicate (value : JVal)
  | logPost (body : LogData)
  | ping (dst : Nat)
  | terminate (dst : Nat)
deriving DecidableEq, Repr

/-- Find a connection by identifier in the registry. -/
def lookupConn (conns : List Conn) (c : Nat) : Option Conn :=
  conns.find? (fun k => k.cid == c)

/-- Update the attributes of the connection with identifier c. -/
def updateConn (conns : List Conn) (c : Nat) (f : Conn → Conn) : List Conn :=
  conns.map (fun k => if k.cid = c then f k else k)

/-- dashboards.add(ws): a Set add, a no-op when already present. -/
def addDash (ds : List Nat) (c : Nat) : List Nat :=
  if c ∈ ds then ds else ds ++ [c]

/-- Broadcast of the raw message text to every dashboard in the set whose
readyState is OPEN (src/server.cjs lines 97-100). -/
def broadcastSends (s : Server) (text : String) : List Output :=
  s.dashboards.filterMap (fun d =>
    match lookupConn s.conns d with
    | some k => if k.readyOpen then some (Output.raw d text) else none
    | none => none)

/-- espSocket and espSocket.readyState === WebSocket.OPEN
(src/server.cjs line 114): the identifier to forward commands to, if the
reference is non-null and the transport is open.  A dangling espSocket
reference (connection no longer in the registry) is not open. -/
def forwardTarget (s : Server) : Option Nat :=
  match s.espSocket with
  | some e =>
    match lookupConn s.conns e with
    | some k => if k.readyOpen then some e else none
    | none => none
  | none => none

/-- Message handler body when JSON.parse succeeded
(src/server.cjs lines 71-131), for the connection ws with identifier c. -/
def handleParsed (s : Server) (c : Nat) (ws : Conn) (text : String) (m : Msg)
    (now : String) : Server × List Output :=
  if m.type = JVal.str "register" ∧ m.role = JVal.str "esp" then
    ({ s with espSocket := some c,
              conns := updateConn s.conns c (fun k => { k with role := Role.esp }) },
     [Output.ack c Role.esp])
  else if m.type = JVal.str "register" ∧ m.role = JVal.str "dashboard" then
    ({ s with conns := updateConn s.conns c (fun k => { k with role := Role.dashboard }),
              dashboards := addDash s.dashboards c },
     [Output.ack c Role.dashboard])
  else if ws.role = Role.esp then
    (s, (if m.type = JVal.str "sensors" then [Output.logPost (logSensorData m now)] else [])
        ++ broadcastSends s text)
  else if ws.role = Role.dashboard then
    if m.type = JVal.str "cmd" ∧ m.cmd = JVal.str "pump" then
      if m.value ≠ s.lastPumpCommand then
        let s1 := { s with lastPumpCommand := m.value }
        match forwardTarget s with
        | some e => (s1, [Output.cmdForward e m])
        | none => (s1, [Output.errorEspNotConnected c])
      else (s, [Output.logDuplicate m.value])
    else (s, [])
  else
    if m.type = JVal.str "sensors" then
      ({ s with espSocket := some c,
                conns := updateConn s.conns c (fun k => { k with role := Role.esp }) },
       [])
    else (s, [])

/-- Message handler body when JSON.parse threw (msg stays null): only the
role-dispatch branches can fire, and an esp-role connection still
broadcasts the raw text (src/server.cjs lines 91-101). -/
def handleUnparsed (s : Server) (ws : Conn) (text : String) : Server × List Output :=
  if ws.role = Role.esp then (s, broadcastSends s text) else (s, [])

/-- ws.on message (src/server.cjs lines 65-132).  The event carries the raw
text and the optional parse result. -/
def handleMessage (s : Server) (c : Nat) (text : String) (parsed : Option Msg)
    (now : String) : Server × List Output :=
  match lookupConn s.conns c with
  | none => (s, [])
  | some ws =>
    match parsed with
    | some m => handleParsed s c ws text m now
    | none => handleUnparsed s ws text

/-- ws.on close (src/server.cjs lines 134-142): clear espSocket when the
closing connection is the current producer, remove a dashboard from the
set, and drop the connection from wss.clients. -/
def handleClose (s : Server) (c : Nat) : Server :=
  match lookupConn s.conns c with
  | none => s
  | some ws =>
    { conns := s.conns.filter (fun k => k.cid ≠ c),
      espSocket := if ws.role = Role.esp ∧ s.espSocket = some c then none else s.espSocket,
      dashboards := if ws.role = Role.dashboard then s.dashboards.filter (fun d => d ≠ c)
                    else s.dashboards,
      lastPumpCommand := s.lastPumpCommand }

/-- wss.on connection (src/server.cjs lines 61-63): a fresh socket starts
unclassified with isAlive = true and an open transport. -/
def handleConnect (s : Server) (c : Nat) : Server :=
  if s.conns.any (fun k => k.cid == c) then s
  else { s with conns := s.conns ++ [{ cid := c, role := Role.unclassified,
                                       isAlive := true, readyOpen := true }] }

/-- ws.on pong (src/server.cjs line 63): mark the connection alive. -/
def handlePong (s : Server) (c : Nat) : Server :=
  { s with conns := updateConn s.conns c (fun k => { k with isAlive := true }) }

/-- The heartbeat interval body (src/server.cjs lines 146-152): terminate
every connection whose isAlive flag is still false, which fires its close
cleanup; mark every surviving connection not-yet-confirmed and ping it. -/
def heartbeatTick (s : Server) : Server × List Output :=
  let dead := s.conns.filter (fun k => !k.isAlive)
  let alive := s.conns.filter (fun k => k.isAlive)
  let s1 := dead.foldl (fun acc k => handleClose acc k.cid) s
  let s2 := { s1 with conns := s1.conns.map (fun k => { k with isAlive := false }) }
  (s2, dead.map (fun k => Output.terminate k.cid) ++ alive.map (fun k => Output.ping k.cid))

/-- Environment events driving the relay. setOpen models the transport
readyState leaving or re-entering OPEN, which the source only ever reads. -/
inductive Event where
  | connect (c : Nat)
  | message (c : Nat) (text : String) (parsed : Option Msg) (now : String)
  | pong (c : Nat)
  | close (c : Nat)
  | tick
  | setOpen (c : Nat) (b : Bool)
deriving DecidableEq, Repr

/-- One step of the relay. -/
def step (s : Server) : Event → Server × List Output
  | .connect c => (handleConnect s c, [])
  | .message c text parsed now => handleMessage s c text parsed now
  | .pong c => (handlePong s c, [])
  | .close c => (handleClose s c, [])
  | .tick => heartbeatTick s
  | .setOpen c b =>
      ({ s with conns := updateConn s.conns c (fun k => { k with readyOpen := b }) }, [])

/-- Run a list of events from a state, concatenating the outputs. -/
def runFrom (s : Server) : List Event → Server × List Output
  | [] => (s, [])
  | e :: es =>
    let p := step s e
    let q := runFrom p.1 es
    (q.1, p.2 ++ q.2)

/-- Run a trace from the initial state. -/
def run (es : List Event) : Server × List Output := runFrom initServer es

/-- Values of the commands actually forwarded to the producer, in order. -/
def forwardedValues (outs : List Output) : List JVal :=
  outs.filterMap (fun o => match o with
    | .cmdForward _ m => some m.value
    | _ => none)

/-- Raw broadcast payloads delivered to consumer d, in order. -/
def rawTo (d : Nat) (outs : List Output) : List String :=
  outs.filterMap (fun o => match o with
    | .raw t text => if t = d then some text else none
    | _ => none)

/-- A registration message for the given role string. -/
def regMsg (r : String) : Msg := { type := JVal.str "register", role := JVal.str r }

/-- A pump command message with the given value. -/
def cmdMsg (v : JVal) : Msg := { type := JVal.str "cmd", cmd := JVal.str "pump", value := v }

/-- A bare telemetry message (type sensors, all fields absent). -/
def sensorsMsg : Msg := { type := JVal.str "sensors" }

/-- Trace: a dashboard registers and sends a pump command while no producer
is connected. -/
def trace1 : List Event :=
  [ .connect 0,
    .message 0 "r" (some (regMsg "dashboard")) "t0",
    .message 0 "c" (some (cmdMsg (.str "ON"))) "t1" ]

/-- Trace: trace1 followed by a second identical pump command, still with
no producer connected. -/
def trace2 : List Event := trace1 ++ [ .message 0 "c" (some (cmdMsg (.str "ON"))) "t2" ]

/-- Trace: a producer registers, consumer 2 registers, telemetry TELEM is
broadcast, then consumer 1 registers after the broadcast. -/
def trace3 : List Event :=
  [ .connect 0, .message 0 "r" (some (regMsg "esp")) "t0",
    .connect 2, .message 2 "r" (some (regMsg "dashboard")) "t1",
    .message 0 "TELEM" (some sensorsMsg) "t2",
    .connect 1, .message 1 "r" (some (regMsg "dashboard")) "t3" ]

/-- Trace: producer and consumer register, then the very first pump command
ever arrives carrying the JSON value null. -/
def trace4 : List Event :=
  [ .connect 0, .message 0 "r" (some (regMsg "esp")) "t0",
    .connect 1, .message 1 "r" (some (regMsg "dashboard")) "t1",
    .message 1 "c" (some (cmdMsg JVal.null)) "t2" ]

/-- Trace: producer and consumer register, then the producer-role connection
sends a message whose text is not parseable JSON. -/
def trace5 : List Event :=
  [ .connect 0, .message 0 "r" (some (regMsg "esp")) "t0",
    .connect 1, .message 1 "r" (some (regMsg "dashboard")) "t1",
    .message 0 "garbage" none "t2" ]

/-- Trace: producer and consumer register, then the producer sends the same
telemetry text twice. -/
def trace6 : List Event :=
  [ .connect 0, .message 0 "r" (some (regMsg "esp")) "t0",
    .connect 1, .message 1 "r" (some (regMsg "dashboard")) "t1",
    .message 0 "T" (some sensorsMsg) "t2",
    .message 0 "T" (some sensorsMsg) "t3" ]

/-- Trace: connection 0 registers as producer, connection 1 registers as a
second producer, a consumer registers, then the superseded connection 0
sends telemetry OLD. -/
def trace7 : List Event :=
  [ .connect 0, .message 0 "r" (some (regMsg "esp")) "t0",
    .connect 1, .message 1 "r" (some (regMsg "esp")) "t1",
    .connect 2, .message 2 "r" (some (regMsg "dashboard")) "t2",
    .message 0 "OLD" (some sensorsMsg) "t3" ]

/-- A message that triggers one of the two explicit registration branches
of the handler (type register with role esp or dashboard). -/
def isRegistration (m : Msg) : Prop :=
  m.type = JVal.str "register" ∧ (m.role = JVal.str "esp" ∨ m.role = JVal.str "dashboard")

instance (m : Msg) : Decidable (isRegistration m) := by
  unfold isRegistration; infer_instance

/-- Witness state: one registered dashboard, no producer. -/
def wSrv : Server :=
  { conns := [{ cid := 0, role := Role.dashboard, isAlive := true, readyOpen := true }],
    espSocket := none, dashboards := [0], lastPumpCommand := JVal.null }

/-- Witness state: like wSrv but with a previously stored command value. -/
def wSrv2 : Server := { wSrv with lastPumpCommand := JVal.str "ON" }

/-- Witness state: one unclassified connection. -/
def wSrv3 : Server :=
  { conns := [{ cid := 0, role := Role.unclassified, isAlive := true, readyOpen := true }],
    espSocket := none, dashboards := [], lastPumpCommand := JVal.null }

/-- Witness state: an open producer and one registered dashboard. -/
def wSrv4 : Server :=
  { conns := [{ cid := 0, role := Role.esp, isAlive := true, readyOpen := true },
              { cid := 1, role := Role.dashboard, isAlive := true, readyOpen := true }],
    espSocket := some 0, dashboards := [1], lastPumpCommand := JVal.null }

/-- Witness state: a producer and two dashboards, one open and one whose
transport left the OPEN state. -/
def wSrv8 : Server :=
  { conns := [{ cid := 0, role := Role.esp, isAlive := true, readyOpen := true },
              { cid := 1, role := Role.dashboard, isAlive := true, readyOpen := true },
              { cid := 2, role := Role.dashboard, isAlive := true, readyOpen := false }],
    espSocket := some 0, dashboards := [1, 2], lastPumpCommand := JVal.null }

/-- Witness state: a dashboard that missed its pong (isAlive false) and a
confirmed producer. -/
def wSrv9 : Server :=
  { conns := [{ cid := 0, role := Role.dashboard, isAlive := false, readyOpen := true },
              { cid := 1, role := Role.esp, isAlive := true, readyOpen := true }],
    espSocket := some 1, dashboards := [0], lastPumpCommand := JVal.null }

/-- A telemetry message whose rain and light fields carry the genuine
reading zero. -/
def sensorsZeroMsg : Msg :=
  { type := JVal.str "sensors", rain_raw := JVal.num 0, ldr_raw := JVal.num 0 }

end Relay

namespace Relay

/-- C1 counterexample: after a pump command ON processed while no producer
is connected, lastPumpCommand holds ON although no command was ever
forwarded to a producer, contradicting the claim that the stored value
always equals the value most recently forwarded. -/
theorem C1_counterexample :
    (run trace1).1.lastPumpCommand = JVal.str "ON" ∧
    forwardedValues (run trace1).2 = [] := by decide

/-- C2 counterexample: two identical pump commands arrive while no producer
is connected; the full output of the run contains exactly one error
response (for the first) and the second command is silently dropped with
only the duplicate log line, contradicting the claim that every such
command is answered with an error regardless of duplication. -/
theorem C2_counterexample :
    (run trace2).2 =
      [Output.ack 0 Role.dashboard, Output.errorEspNotConnected 0,
       Output.logDuplicate (JVal.str "ON")] := by decide

/-- C3 counterexample: telemetry TELEM is broadcast (consumer 2, connected
before it, receives it), but consumer 1, registering after the broadcast,
receives it zero times rather than exactly once: no catch-up delivery
exists. -/
theorem C3_counterexample :
    rawTo 2 (run trace3).2 = ["TELEM"] ∧ rawTo 1 (run trace3).2 = [] := by decide

/-- C4 counterexample: with a producer connected and open and no command
ever forwarded before, a first pump command whose value is null is dropped
as a duplicate (of the initial null slot) instead of being forwarded,
contradicting the claimed forwarding condition. -/
theorem C4_counterexample :
    (run trace4).2 =
      [Output.ack 0 Role.esp, Output.ack 1 Role.dashboard,
       Output.logDuplicate JVal.null] ∧
    forwardedValues (run trace4).2 = [] := by decide

/-- C5 counterexample: a message whose text is not parseable JSON, sent on
the producer-role connection, is broadcast verbatim to the registered
dashboard, contradicting the claim that no part of a malformed message is
forwarded to any other peer. -/
theorem C5_counterexample :
    (run trace5).2 =
      [Output.ack 0 Role.esp, Output.ack 1 Role.dashboard,
       Output.raw 1 "garbage"] := by decide

/-- C6 counterexample: the producer sends the identical telemetry text
twice and the consumer observes two identical broadcasts; successive
broadcasts are therefore not pairwise distinct, so they cannot carry a
relay-assigned strictly increasing sequence number. -/
theorem C6_counterexample :
    rawTo 1 (run trace6).2 = ["T", "T"] ∧
    ¬ List.Pairwise (fun a b => a ≠ b) (rawTo 1 (run trace6).2) := by decide

/-- C7 counterexample: after connection 1 registers as a second producer,
espSocket points to 1, yet the superseded connection 0 still holds role
esp and its subsequent telemetry OLD is still broadcast to the consumer,
contradicting the claim that the prior connection no longer acts as
producer. -/
theorem C7_counterexample :
    (run trace7).1.espSocket = some 1 ∧
    Output.raw 2 "OLD" ∈ (run trace7).2 ∧
    lookupConn (run trace7).1.conns 0 =
      some { cid := 0, role := Role.esp, isAlive := true, readyOpen := true } := by decide

end Relay

namespace Relay

/-- Rewrite: a message with a successful parse from a known connection is
handled by handleParsed. -/
theorem handleMessage_eq_parsed (s : Server) (c : Nat) (text now : String) (m : Msg)
    (ws : Conn) (hws : lookupConn s.conns c = some ws) :
    handleMessage s c text (some m) now = handleParsed s c ws text m now := by
  unfold handleMessage
  rw [hws]

/-- Rewrite: a message whose parse failed, from a known connection, is
handled by handleUnparsed. -/
theorem handleMessage_eq_unparsed (s : Server) (c : Nat) (text now : String)
    (ws : Conn) (hws : lookupConn s.conns c = some ws) :
    handleMessage s c text none now = handleUnparsed s ws text := by
  unfold handleMessage
  rw [hws]

/-- Rewrite: on a dashboard-role connection, a pump command message reduces
to the deduplication branch of the handler. -/
theorem handleParsed_cmd (s : Server) (c : Nat) (ws : Conn) (text : String) (m : Msg)
    (now : String) (hrole : ws.role = Role.dashboard)
    (htype : m.type = JVal.str "cmd") (hcmd : m.cmd = JVal.str "pump") :
    handleParsed s c ws text m now =
      (if m.value ≠ s.lastPumpCommand then
         match forwardTarget s with
         | some e => ({ s with lastPumpCommand := m.value }, [Output.cmdForward e m])
         | none => ({ s with lastPumpCommand := m.value }, [Output.errorEspNotConnected c])
       else (s, [Output.logDuplicate m.value])) := by
  have h1 : ¬(m.type = JVal.str "register" ∧ m.role = JVal.str "esp") := by
    rintro ⟨h, -⟩; rw [htype] at h; exact absurd h (by decide)
  have h2 : ¬(m.type = JVal.str "register" ∧ m.role = JVal.str "dashboard") := by
    rintro ⟨h, -⟩; rw [htype] at h; exact absurd h (by decide)
  have h3 : ¬ ws.role = Role.esp := by rw [hrole]; decide
  unfold handleParsed
  rw [if_neg h1, if_neg h2, if_neg h3, if_pos hrole, if_pos ⟨htype, hcmd⟩]

/-- Rewrite: an esp registration message reduces to the esp registration
branch. -/
theorem handleParsed_reg_esp (s : Server) (c : Nat) (ws : Conn) (text : String) (m : Msg)
    (now : String) (htype : m.type = JVal.str "register") (hrole : m.role = JVal.str "esp") :
    handleParsed s c ws text m now =
      ({ s with espSocket := some c,
                conns := updateConn s.conns c (fun k => { k with role := Role.esp }) },
       [Output.ack c Role.esp]) := by
  unfold handleParsed
  rw [if_pos ⟨htype, hrole⟩]

/-- Rewrite: a dashboard registration message reduces to the dashboard
registration branch. -/
theorem handleParsed_reg_dashboard (s : Server) (c : Nat) (ws : Conn) (text : String)
    (m : Msg) (now : String) (htype : m.type = JVal.str "register")
    (hrole : m.role = JVal.str "dashboard") :
    handleParsed s c ws text m now =
      ({ s with conns := updateConn s.conns c (fun k => { k with role := Role.dashboard }),
                dashboards := addDash s.dashboards c },
       [Output.ack c Role.dashboard]) := by
  have h1 : ¬(m.type = JVal.str "register" ∧ m.role = JVal.str "esp") := by
    rintro ⟨-, h⟩; rw [hrole] at h; exact absurd h (by decide)
  unfold handleParsed
  rw [if_neg h1, if_pos ⟨htype, hrole⟩]

/-- Rewrite: on an esp-role connection, any non-registration parsed message
reduces to the telemetry branch (optional POST plus broadcast). -/
theorem handleParsed_esp (s : Server) (c : Nat) (ws : Conn) (text : String) (m : Msg)
    (now : String) (hrole : ws.role = Role.esp) (hnr : ¬ isRegistration m) :
    handleParsed s c ws text m now =
      (s, (if m.type = JVal.str "sensors" then [Output.logPost (logSensorData m now)] else [])
          ++ broadcastSends s text) := by
  unfold handleParsed
  rw [if_neg (fun h => hnr ⟨h.1, Or.inl h.2⟩),
      if_neg (fun h => hnr ⟨h.1, Or.inr h.2⟩), if_pos hrole]

/-- Characterization of broadcast delivery: a raw send to d is produced
exactly when the payload is the arrival text, d is a registered dashboard
and its transport is open. -/
theorem mem_broadcastSends (s : Server) (text : String) (d : Nat) (t : String) :
    Output.raw d t ∈ broadcastSends s text ↔
      t = text ∧ d ∈ s.dashboards ∧
        ∃ k, lookupConn s.conns d = some k ∧ k.readyOpen = true := by
  unfold broadcastSends
  rw [List.mem_filterMap]
  constructor
  · rintro ⟨a, ha, hfa⟩
    cases hk : lookupConn s.conns a with
    | none => simp only [hk] at hfa; exact absurd hfa (by simp)
    | some k =>
      simp only [hk] at hfa
      by_cases ho : k.readyOpen
      · rw [if_pos ho] at hfa
        obtain ⟨rfl, rfl⟩ : a = d ∧ text = t := by
          injection hfa with h; injection h with h1 h2; exact ⟨h1, h2⟩
        exact ⟨rfl, ha, k, hk, ho⟩
      · rw [if_neg ho] at hfa; exact absurd hfa (by simp)
  · rintro ⟨rfl, hd, k, hk, ho⟩
    refine ⟨d, hd, ?_⟩
    simp only [hk, if_pos ho]

/-- Close cleanup removes exactly the connections with the closed
identifier from the registry. -/
theorem mem_handleClose_conns (s : Server) (c : Nat) (k : Conn) :
    k ∈ (handleClose s c).conns ↔ k ∈ s.conns ∧ k.cid ≠ c := by
  unfold handleClose
  cases hl : lookupConn s.conns c with
  | none =>
    constructor
    · intro h
      refine ⟨h, ?_⟩
      intro hc
      have := List.find?_eq_none.mp hl k h
      simp [hc] at this
    · exact fun h => h.1
  | some ws =>
    simp only [List.mem_filter]
    constructor
    · rintro ⟨h1, h2⟩
      exact ⟨h1, by simpa using h2⟩
    · rintro ⟨h1, h2⟩
      exact ⟨h1, by simpa using h2⟩

/-- Folding close cleanup over a list of connections removes exactly the
connections carrying one of their identifiers. -/
theorem mem_foldClose (cs : List Conn) (s : Server) (k : Conn) :
    k ∈ (cs.foldl (fun acc kd => handleClose acc kd.cid) s).conns ↔
      k ∈ s.conns ∧ ∀ kd ∈ cs, k.cid ≠ kd.cid := by
  induction cs generalizing s with
  | nil => simp
  | cons kd rest ih =>
    simp only [List.foldl_cons]
    rw [ih, mem_handleClose_conns]
    constructor
    · rintro ⟨⟨hk, hne⟩, hall⟩
      refine ⟨hk, ?_⟩
      intro kd2 h
      rcases List.mem_cons.mp h with h | h
      · rw [h]; exact hne
      · exact hall kd2 h
    · rintro ⟨hk, hall⟩
      exact ⟨⟨hk, hall kd (List.mem_cons_self kd rest)⟩,
        fun kd2 h => hall kd2 (List.mem_cons_of_mem kd h)⟩

/-- C1 (amended): after a pump command whose value differs from the stored
lastPumpCommand, the store is updated to the new value whether or not the
command was forwarded; when no producer connection is open, only an error
reply is emitted yet the value is stored anyway.  A duplicate command
leaves the state unchanged with only the debug log line. -/
theorem C1_amended_lastCommand (s : Server) (c : Nat) (ws : Conn) (text now : String)
    (m : Msg) (hws : lookupConn s.conns c = some ws) (hrole : ws.role = Role.dashboard)
    (htype : m.type = JVal.str "cmd") (hcmd : m.cmd = JVal.str "pump") :
    (m.value ≠ s.lastPumpCommand →
       (handleMessage s c text (some m) now).1.lastPumpCommand = m.value ∧
       (forwardTarget s = none →
          (handleMessage s c text (some m) now).2 = [Output.errorEspNotConnected c])) ∧
    (m.value = s.lastPumpCommand →
       handleMessage s c text (some m) now = (s, [Output.logDuplicate m.value])) := by
  rw [handleMessage_eq_parsed s c text now m ws hws,
      handleParsed_cmd s c ws text m now hrole htype hcmd]
  constructor
  · intro hne
    rw [if_pos hne]
    cases hft : forwardTarget s with
    | some e => exact ⟨rfl, fun h => nomatch h⟩
    | none => exact ⟨rfl, fun _ => rfl⟩
  · intro heq
    rw [if_neg (fun h => h heq)]

/-- Witness for C1_amended_lastCommand at a concrete state with no
producer: the command value is stored although only an error is sent. -/
theorem C1_amended_lastCommand_witness :
    (handleMessage wSrv 0 "c" (some (cmdMsg (JVal.str "ON"))) "t").1.lastPumpCommand
        = JVal.str "ON" ∧
    (handleMessage wSrv 0 "c" (some (cmdMsg (JVal.str "ON"))) "t").2
        = [Output.errorEspNotConnected 0] := by
  have h := C1_amended_lastCommand wSrv 0
      { cid := 0, role := Role.dashboard, isAlive := true, readyOpen := true }
      "c" "t" (cmdMsg (JVal.str "ON")) (by decide) rfl rfl rfl
  have h2 := h.1 (by decide)
  exact ⟨h2.1, h2.2 rfl⟩

/-- C2 (amended): while no producer connection is open, a pump command is
answered with the explicit error reply exactly when its value differs from
the stored lastPumpCommand; a duplicate command is silently dropped with
only the debug log line even though no producer is connected. -/
theorem C2_amended_no_producer (s : Server) (c : Nat) (ws : Conn) (text now : String)
    (m : Msg) (hws : lookupConn s.conns c = some ws) (hrole : ws.role = Role.dashboard)
    (htype : m.type = JVal.str "cmd") (hcmd : m.cmd = JVal.str "pump")
    (hnp : forwardTarget s = none) :
    ((handleMessage s c text (some m) now).2 = [Output.errorEspNotConnected c] ↔
       m.value ≠ s.lastPumpCommand) ∧
    (m.value = s.lastPumpCommand →
       (handleMessage s c text (some m) now).2 = [Output.logDuplicate m.value]) := by
  rw [handleMessage_eq_parsed s c text now m ws hws,
      handleParsed_cmd s c ws text m now hrole htype hcmd]
  constructor
  · constructor
    · intro hout
      by_contra heq
      rw [if_neg (fun hh => hh heq)] at hout
      exact absurd hout (by simp)
    · intro hne
      rw [if_pos hne, hnp]
  · intro heq
    rw [if_neg (fun h => h heq)]

/-- Witness for C2_amended_no_producer: with lastPumpCommand already ON and
no producer, a second ON command yields no error, only the duplicate log. -/
theorem C2_amended_no_producer_witness :
    ¬((handleMessage wSrv2 0 "c" (some (cmdMsg (JVal.str "ON"))) "t").2
        = [Output.errorEspNotConnected 0]) ∧
    (handleMessage wSrv2 0 "c" (some (cmdMsg (JVal.str "ON"))) "t").2
        = [Output.logDuplicate (JVal.str "ON")] := by
  have h := C2_amended_no_producer wSrv2 0
      { cid := 0, role := Role.dashboard, isAlive := true, readyOpen := true }
      "c" "t" (cmdMsg (JVal.str "ON")) (by decide) rfl rfl rfl rfl
  exact ⟨fun hc => (h.1.mp hc) rfl, h.2 rfl⟩

/-- C3 (amended): the relay keeps no last-state cache and performs no
catch-up: a connection registering as dashboard is sent exactly the
registration ack and no raw telemetry; it only receives telemetry arriving
after its registration. -/
theorem C3_amended_register_ack_only (s : Server) (c : Nat) (ws : Conn) (text now : String)
    (m : Msg) (hws : lookupConn s.conns c = some ws)
    (htype : m.type = JVal.str "register") (hrole : m.role = JVal.str "dashboard") :
    (handleMessage s c text (some m) now).2 = [Output.ack c Role.dashboard] ∧
    (∀ d t2, ¬ Output.raw d t2 ∈ (handleMessage s c text (some m) now).2) := by
  rw [handleMessage_eq_parsed s c text now m ws hws,
      handleParsed_reg_dashboard s c ws text m now htype hrole]
  exact ⟨rfl, by intro d t2; simp⟩

/-- Witness for C3_amended_register_ack_only at a concrete registration. -/
theorem C3_amended_register_ack_only_witness :
    (handleMessage wSrv3 0 "r" (some (regMsg "dashboard")) "t").2
      = [Output.ack 0 Role.dashboard] :=
  (C3_amended_register_ack_only wSrv3 0
    { cid := 0, role := Role.unclassified, isAlive := true, readyOpen := true }
    "r" "t" (regMsg "dashboard") (by decide) rfl rfl).1

/-- C4 (amended): with a producer connection open, a pump command is
forwarded exactly when its value differs under strict equality from the
stored lastPumpCommand (a single global slot initialized to null); there
is no cooldown window, and an equal-valued command is always dropped with
only the debug log line, the state unchanged. -/
theorem C4_amended_dedup_iff (s : Server) (c : Nat) (ws : Conn) (text now : String)
    (m : Msg) (e : Nat) (hws : lookupConn s.conns c = some ws)
    (hrole : ws.role = Role.dashboard) (htype : m.type = JVal.str "cmd")
    (hcmd : m.cmd = JVal.str "pump") (hft : forwardTarget s = some e) :
    ((handleMessage s c text (some m) now).2 = [Output.cmdForward e m] ↔
       m.value ≠ s.lastPumpCommand) ∧
    (m.value = s.lastPumpCommand →
       handleMessage s c text (some m) now = (s, [Output.logDuplicate m.value])) ∧
    (m.value ≠ s.lastPumpCommand →
       (handleMessage s c text (some m) now).1.lastPumpCommand = m.value) := by
  rw [handleMessage_eq_parsed s c text now m ws hws,
      handleParsed_cmd s c ws text m now hrole htype hcmd]
  refine ⟨⟨?_, ?_⟩, ?_, ?_⟩
  · intro hout
    by_contra heq
    rw [if_neg (fun hh => hh heq)] at hout
    exact absurd hout (by simp)
  · intro hne
    rw [if_pos hne, hft]
  · intro heq
    rw [if_neg (fun h => h heq)]
  · intro hne
    rw [if_pos hne, hft]

/-- Witness for C4_amended_dedup_iff: a first ON command with an open
producer is forwarded. -/
theorem C4_amended_dedup_iff_witness :
    (handleMessage wSrv4 1 "c" (some (cmdMsg (JVal.str "ON"))) "t").2
      = [Output.cmdForward 0 (cmdMsg (JVal.str "ON"))] := by
  have h := C4_amended_dedup_iff wSrv4 1
      { cid := 1, role := Role.dashboard, isAlive := true, readyOpen := true }
      "c" "t" (cmdMsg (JVal.str "ON")) 0 (by decide) rfl rfl rfl rfl
  exact h.1.mpr (by decide)

/-- C5 (amended): a message whose text is not parseable JSON never changes
the relay state and the connection stays registered; from a dashboard-role
or unclassified connection it produces no output at all, but from an
esp-role connection the raw text is still broadcast to every open
dashboard. -/
theorem C5_amended_malformed (s : Server) (c : Nat) (ws : Conn) (text now : String)
    (hws : lookupConn s.conns c = some ws) :
    (handleMessage s c text none now).1 = s ∧
    (ws.role ≠ Role.esp → (handleMessage s c text none now).2 = []) ∧
    (ws.role = Role.esp → (handleMessage s c text none now).2 = broadcastSends s text) := by
  rw [handleMessage_eq_unparsed s c text now ws hws]
  unfold handleUnparsed
  by_cases h : ws.role = Role.esp
  · rw [if_pos h]
    exact ⟨rfl, fun hne => absurd h hne, fun _ => rfl⟩
  · rw [if_neg h]
    exact ⟨rfl, fun _ => rfl, fun he => absurd he h⟩

/-- Witness for C5_amended_malformed on a dashboard-role connection: state
unchanged and no output. -/
theorem C5_amended_malformed_witness :
    (handleMessage wSrv 0 "garbage" none "t").1 = wSrv ∧
    (handleMessage wSrv 0 "garbage" none "t").2 = [] := by
  have h := C5_amended_malformed wSrv 0
      { cid := 0, role := Role.dashboard, isAlive := true, readyOpen := true }
      "garbage" "t" (by decide)
  exact ⟨h.1, h.2.1 (by decide)⟩

/-- C6 (amended): the relay assigns no sequence number and stores no
telemetry: handling a telemetry message leaves the state unchanged, its
outputs are exactly the storage POST followed by the broadcasts, and every
broadcast payload is the raw arrival text unchanged. -/
theorem C6_amended_passthrough (s : Server) (c : Nat) (ws : Conn) (text now : String)
    (m : Msg) (hws : lookupConn s.conns c = some ws) (hrole : ws.role = Role.esp)
    (hsens : m.type = JVal.str "sensors") :
    (handleMessage s c text (some m) now).1 = s ∧
    ((handleMessage s c text (some m) now).2 =
       Output.logPost (logSensorData m now) :: broadcastSends s text) ∧
    (∀ d t2, Output.raw d t2 ∈ (handleMessage s c text (some m) now).2 → t2 = text) := by
  have hnr : ¬ isRegistration m := by
    rintro ⟨h, -⟩; rw [hsens] at h; exact absurd h (by decide)
  rw [handleMessage_eq_parsed s c text now m ws hws,
      handleParsed_esp s c ws text m now hrole hnr, if_pos hsens]
  refine ⟨rfl, rfl, ?_⟩
  intro d t2 hmem
  rcases List.mem_append.mp hmem with h | h
  · exact absurd h (by simp)
  · exact ((mem_broadcastSends s text d t2).mp h).1

/-- Witness for C6_amended_passthrough at a concrete telemetry step. -/
theorem C6_amended_passthrough_witness :
    (handleMessage wSrv4 0 "T" (some sensorsMsg) "now").1 = wSrv4 ∧
    (handleMessage wSrv4 0 "T" (some sensorsMsg) "now").2 =
      Output.logPost (logSensorData sensorsMsg "now") :: broadcastSends wSrv4 "T" := by
  have h := C6_amended_passthrough wSrv4 0
      { cid := 0, role := Role.esp, isAlive := true, readyOpen := true }
      "T" "now" sensorsMsg (by decide) rfl rfl
  exact ⟨h.1, h.2.1⟩

/-- C7 (amended): a second esp registration supersedes the prior producer
only as the command-forward target: espSocket now points to the new
connection, while every other connection, in particular a previously
registered producer, is kept unchanged in the registry with its esp role,
so its later messages are still broadcast as telemetry. -/
theorem C7_amended_supersede (s : Server) (c : Nat) (ws : Conn) (text now : String)
    (m : Msg) (hws : lookupConn s.conns c = some ws)
    (htype : m.type = JVal.str "register") (hrole : m.role = JVal.str "esp") :
    (handleMessage s c text (some m) now).1.espSocket = some c ∧
    (∀ k, k ∈ s.conns → k.cid ≠ c →
       k ∈ (handleMessage s c text (some m) now).1.conns) := by
  rw [handleMessage_eq_parsed s c text now m ws hws,
      handleParsed_reg_esp s c ws text m now htype hrole]
  refine ⟨rfl, ?_⟩
  intro k hk hne
  unfold updateConn
  exact List.mem_map.mpr ⟨k, hk, by rw [if_neg hne]⟩

/-- Witness for C7_amended_supersede: after connection 1 registers as
producer, espSocket is 1 and the prior producer 0 is still present with
role esp. -/
theorem C7_amended_supersede_witness :
    (handleMessage wSrv4 1 "r" (some (regMsg "esp")) "t").1.espSocket = some 1 ∧
    ({ cid := 0, role := Role.esp, isAlive := true, readyOpen := true } : Conn)
      ∈ (handleMessage wSrv4 1 "r" (some (regMsg "esp")) "t").1.conns := by
  have h := C7_amended_supersede wSrv4 1
      { cid := 1, role := Role.dashboard, isAlive := true, readyOpen := true }
      "r" "t" (regMsg "esp") (by decide) rfl rfl
  exact ⟨h.1, h.2 { cid := 0, role := Role.esp, isAlive := true, readyOpen := true }
    (by decide) (by decide)⟩

/-- C8: fan-out completeness.  For any message from the producer-role
connection that is not a registration, a consumer d receives a copy of the
raw text if and only if d is a registered dashboard whose transport is
open, and every copy delivered to any consumer is the identical arrival
text; whether one dashboard is open or failed does not enter the condition
for any other dashboard. -/
theorem C8_fanout_complete (s : Server) (c : Nat) (ws : Conn) (text now : String)
    (parsed : Option Msg) (d : Nat)
    (hws : lookupConn s.conns c = some ws) (hrole : ws.role = Role.esp)
    (hnr : ∀ m, parsed = some m → ¬ isRegistration m) :
    (Output.raw d text ∈ (handleMessage s c text parsed now).2 ↔
       d ∈ s.dashboards ∧ ∃ k, lookupConn s.conns d = some k ∧ k.readyOpen = true) ∧
    (∀ d2 t2, Output.raw d2 t2 ∈ (handleMessage s c text parsed now).2 → t2 = text) := by
  cases parsed with
  | none =>
    rw [handleMessage_eq_unparsed s c text now ws hws]
    unfold handleUnparsed
    rw [if_pos hrole]
    constructor
    · rw [mem_broadcastSends]
      constructor
      · rintro ⟨-, h⟩; exact h
      · intro h; exact ⟨rfl, h⟩
    · intro d2 t2 h
      exact ((mem_broadcastSends s text d2 t2).mp h).1
  | some m =>
    rw [handleMessage_eq_parsed s c text now m ws hws,
        handleParsed_esp s c ws text m now hrole (hnr m rfl)]
    constructor
    · constructor
      · intro h
        rcases List.mem_append.mp h with h | h
        · by_cases hs : m.type = JVal.str "sensors"
          · rw [if_pos hs] at h; exact absurd h (by simp)
          · rw [if_neg hs] at h; exact absurd h (by simp)
        · exact ((mem_broadcastSends s text d text).mp h).2
      · intro h
        exact List.mem_append.mpr (Or.inr ((mem_broadcastSends s text d text).mpr ⟨rfl, h⟩))
    · intro d2 t2 h
      rcases List.mem_append.mp h with h | h
      · by_cases hs : m.type = JVal.str "sensors"
        · rw [if_pos hs] at h; exact absurd h (by simp)
        · rw [if_neg hs] at h; exact absurd h (by simp)
      · exact ((mem_broadcastSends s text d2 t2).mp h).1

/-- Witness for C8_fanout_complete: the open dashboard 1 receives the
telemetry, the non-open dashboard 2 does not. -/
theorem C8_fanout_complete_witness :
    Output.raw 1 "T" ∈ (handleMessage wSrv8 0 "T" (some sensorsMsg) "now").2 ∧
    ¬ Output.raw 2 "T" ∈ (handleMessage wSrv8 0 "T" (some sensorsMsg) "now").2 := by
  have hnr : ∀ m, (some sensorsMsg : Option Msg) = some m → ¬ isRegistration m := by
    intro m hm
    obtain rfl : sensorsMsg = m := by injection hm
    decide
  have h1 := C8_fanout_complete wSrv8 0
      { cid := 0, role := Role.esp, isAlive := true, readyOpen := true }
      "T" "now" (some sensorsMsg) 1 (by decide) rfl hnr
  have h2 := C8_fanout_complete wSrv8 0
      { cid := 0, role := Role.esp, isAlive := true, readyOpen := true }
      "T" "now" (some sensorsMsg) 2 (by decide) rfl hnr
  constructor
  · exact h1.1.mpr (by decide)
  · intro hmem
    have := h2.1.mp hmem
    exact absurd this (by decide)

/-- C9: heartbeat pruning.  A pong marks its connection confirmed; on a
heartbeat tick every confirmed connection is pinged and marked
not-yet-confirmed, while every connection still unconfirmed is terminated,
removed from the registry, and can no longer receive any broadcast, so an
unresponsive peer survives at most until the next tick. -/
theorem C9_heartbeat (s : Server) (k : Conn)
    (hnd : (s.conns.map Conn.cid).Nodup) (hk : k ∈ s.conns) :
    ({ k with isAlive := true } ∈ (handlePong s k.cid).conns) ∧
    (k.isAlive = true →
       Output.ping k.cid ∈ (heartbeatTick s).2 ∧
       { k with isAlive := false } ∈ (heartbeatTick s).1.conns) ∧
    (k.isAlive = false →
       Output.terminate k.cid ∈ (heartbeatTick s).2 ∧
       lookupConn (heartbeatTick s).1.conns k.cid = none ∧
       ∀ t2, ¬ Output.raw k.cid t2 ∈ broadcastSends (heartbeatTick s).1 t2) := by
  refine ⟨?_, ?_, ?_⟩
  · unfold handlePong updateConn
    exact List.mem_map.mpr ⟨k, hk, by rw [if_pos rfl]⟩
  · intro hAlive
    constructor
    · simp only [heartbeatTick]
      refine List.mem_append.mpr (Or.inr ?_)
      exact List.mem_map.mpr ⟨k, List.mem_filter.mpr ⟨hk, by simp [hAlive]⟩, rfl⟩
    · simp only [heartbeatTick]
      refine List.mem_map.mpr ⟨k, ?_, rfl⟩
      rw [mem_foldClose]
      refine ⟨hk, ?_⟩
      intro kd hkd
      have hkd2 := List.mem_filter.mp hkd
      intro hcid
      have : k = kd := List.inj_on_of_nodup_map hnd hk hkd2.1 hcid
      rw [this] at hAlive
      simp [hAlive] at hkd2
  · intro hDead
    have hkdead : k ∈ s.conns.filter (fun k2 => !k2.isAlive) :=
      List.mem_filter.mpr ⟨hk, by simp [hDead]⟩
    have hlook : lookupConn (heartbeatTick s).1.conns k.cid = none := by
      simp only [heartbeatTick]
      apply List.find?_eq_none.mpr
      intro x hx
      have hx2 := List.mem_map.mp hx
      obtain ⟨k2, hk2, rfl⟩ := hx2
      have := (mem_foldClose _ s k2).mp hk2
      have hne := this.2 k hkdead
      simp [hne]
    refine ⟨?_, hlook, ?_⟩
    · simp only [heartbeatTick]
      exact List.mem_append.mpr (Or.inl (List.mem_map.mpr ⟨k, hkdead, rfl⟩))
    · intro t2 hmem
      obtain ⟨-, -, k2, hk2, -⟩ := (mem_broadcastSends _ t2 k.cid t2).mp hmem
      rw [hlook] at hk2
      exact absurd hk2 (by simp)

/-- Witness for C9_heartbeat: the unconfirmed dashboard 0 is terminated and
gone from the registry at the tick, the confirmed producer 1 is pinged. -/
theorem C9_heartbeat_witness :
    Output.terminate 0 ∈ (heartbeatTick wSrv9).2 ∧
    lookupConn (heartbeatTick wSrv9).1.conns 0 = none ∧
    Output.ping 1 ∈ (heartbeatTick wSrv9).2 := by
  have h0 := C9_heartbeat wSrv9
      { cid := 0, role := Role.dashboard, isAlive := false, readyOpen := true }
      (by decide) (by decide)
  have h1 := C9_heartbeat wSrv9
      { cid := 1, role := Role.esp, isAlive := true, readyOpen := true }
      (by decide) (by decide)
  exact ⟨(h0.2.2 rfl).1, (h0.2.2 rfl).2.1, (h1.2.1 rfl).1⟩

/-- C10: the telemetry-forwarding path POSTs the normalized body in which
every falsy-or-absent sensor field is replaced by its fixed default
(soil_pct, temperature, humidity, flow_lmin, total_l, pump by 0, rain_raw
by 1023, ldr_raw by 500, mode by AUTO); in particular a genuine rain_raw
reading 0 is forwarded as 1023 and a genuine ldr_raw reading 0 as 500. -/
theorem C10_post_defaults (s : Server) (c : Nat) (ws : Conn) (text now : String)
    (m : Msg) (hws : lookupConn s.conns c = some ws) (hrole : ws.role = Role.esp)
    (hsens : m.type = JVal.str "sensors") :
    Output.logPost (logSensorData m now) ∈ (handleMessage s c text (some m) now).2 ∧
    (logSensorData m now).soil_pct = (if m.soil_pct.falsy then JVal.num 0 else m.soil_pct) ∧
    (logSensorData m now).temperature
      = (if m.temperature.falsy then JVal.num 0 else m.temperature) ∧
    (logSensorData m now).humidity = (if m.humidity.falsy then JVal.num 0 else m.humidity) ∧
    (logSensorData m now).flow_lmin
      = (if m.flow_lmin.falsy then JVal.num 0 else m.flow_lmin) ∧
    (logSensorData m now).total_l = (if m.total_l.falsy then JVal.num 0 else m.total_l) ∧
    (logSensorData m now).pump = (if m.pump.falsy then JVal.num 0 else m.pump) ∧
    (logSensorData m now).rain_raw
      = (if m.rain_raw.falsy then JVal.num 1023 else m.rain_raw) ∧
    (logSensorData m now).ldr_raw = (if m.ldr_raw.falsy then JVal.num 500 else m.ldr_raw) ∧
    (logSensorData m now).mode = (if m.mode.falsy then JVal.str "AUTO" else m.mode) ∧
    (m.rain_raw = JVal.num 0 → (logSensorData m now).rain_raw = JVal.num 1023) ∧
    (m.ldr_raw = JVal.num 0 → (logSensorData m now).ldr_raw = JVal.num 500) := by
  have hnr : ¬ isRegistration m := by
    rintro ⟨h, -⟩; rw [hsens] at h; exact absurd h (by decide)
  rw [handleMessage_eq_parsed s c text now m ws hws,
      handleParsed_esp s c ws text m now hrole hnr, if_pos hsens]
  refine ⟨List.mem_append.mpr (Or.inl (by simp)), rfl, rfl, rfl, rfl, rfl, rfl, rfl, rfl,
    rfl, ?_, ?_⟩
  · intro h; simp [logSensorData, jsOr, JVal.falsy, h]
  · intro h; simp [logSensorData, jsOr, JVal.falsy, h]

/-- Witness for C10_post_defaults at a telemetry message whose rain and
light fields genuinely read 0: the POSTed body carries 1023 and 500. -/
theorem C10_post_defaults_witness :
    Output.logPost (logSensorData sensorsZeroMsg "now")
      ∈ (handleMessage wSrv4 0 "T" (some sensorsZeroMsg) "now").2 ∧
    (logSensorData sensorsZeroMsg "now").rain_raw = JVal.num 1023 ∧
    (logSensorData sensorsZeroMsg "now").ldr_raw = JVal.num 500 := by
  have h := C10_post_defaults wSrv4 0
      { cid := 0, role := Role.esp, isAlive := true, readyOpen := true }
      "T" "now" sensorsZeroMsg (by decide) rfl rfl
  exact ⟨h.1, h.2.2.2.2.2.2.2.2.2.2.1 rfl, h.2.2.2.2.2.2.2.2.2.2.2 rfl⟩

end Relay
